import Mathlib

/-!
Shallow embedding of the host-reachability prober of `sniv2.py`
(SNI-Host-Scanner).  The network and the clock are modelled as oracles
(`Transport`, `Env`): each primitive call (an HTTPS/HTTP GET, a raw
`connect_ex`, a DNS lookup) is answered by the oracle, and the measured
wall-clock latency of a call is part of the oracle's answer.  Side
effects that the claims talk about (probe invocations, `time.sleep`
calls) are recorded in an explicit event trace, and the one piece of
process-global state the prober touches (`socket.setdefaulttimeout`)
is threaded explicitly as a value of type `Gs`.
-/

/-- Process-global state: the default socket timeout, in seconds
(`socket.setdefaulttimeout`).  `none` means "never set". -/
abbrev Gs : Type := Option ℚ

/-- Outcome of one `requests.get` call: either a successful HTTP response
together with the measured wall-clock latency in milliseconds, or a raised
`requests.RequestException` / `socket.error` (the exception classes caught
by `check_host`). -/
inductive HttpR : Type
  | ok (lat : ℚ)
  | exn
deriving DecidableEq

/-- Outcome of one `sock.connect_ex` call: either a numeric result code
together with the measured wall-clock latency in milliseconds, or a raised
`socket.error` (e.g. `gaierror` on name-resolution failure). -/
inductive TcpR : Type
  | code (r : Int) (lat : ℚ)
  | exn
deriving DecidableEq

/-- The transport oracle for one probe attempt: what `requests.get` on the
https URL, `requests.get` on the http URL, and `connect_ex` would return. -/
structure Transport : Type where
  httpsGet : String → HttpR
  httpGet : String → HttpR
  connectEx : String → Nat → TcpR

/-- Observable events of a run: one `check_host` invocation for a
(host, port) pair, one `time.sleep(secs)` call, one DNS lookup. -/
inductive Ev : Type
  | probe (host : String) (port : Nat)
  | sleep (secs : Nat)
  | dns (host : String)
deriving DecidableEq

/-- Number of probe (`check_host`) invocations recorded in a trace. -/
def countProbes (evs : List Ev) : Nat :=
  (evs.filter fun e => match e with | Ev.probe _ _ => true | _ => false).length

/-- Number of `time.sleep` calls recorded in a trace. -/
def countSleeps (evs : List Ev) : Nat :=
  (evs.filter fun e => match e with | Ev.sleep _ => true | _ => false).length

/-- `check_host(host, port)` from sniv2.py lines 184-205.  Port 443 issues
`requests.get("https://host", timeout=10)` and returns `(True, latency)` on
any response; port 80 does the same with the http URL; any other port first
calls `socket.setdefaulttimeout(10)` (mutating the global state) and then
`connect_ex`, whose numeric result decides reachability while the latency is
the measured wall-clock time of the connect attempt.  A raised
`requests.RequestException` or `socket.error` is caught and yields
`(False, 0)`. -/
def check_host (t : Transport) (host : String) (port : Nat) (g : Gs) :
    (Bool × ℚ) × Gs :=
  if port = 443 then
    match t.httpsGet host with
    | HttpR.ok lat => ((true, lat), g)
    | HttpR.exn => ((false, 0), g)
  else if port = 80 then
    match t.httpGet host with
    | HttpR.ok lat => ((true, lat), g)
    | HttpR.exn => ((false, 0), g)
  else
    match t.connectEx host port with
    | TcpR.code r lat => ((r == 0, lat), (some 10 : Option ℚ))
    | TcpR.exn => ((false, 0), (some 10 : Option ℚ))

/-- The retry loop body of `check_host_with_retry` (sniv2.py lines 209-214):
`for attempt in range(retries)` starting at index `attempt` with `fuel`
iterations left.  Each iteration calls `check_host` (recorded as an
`Ev.probe` event); a reachable result returns immediately, otherwise
`time.sleep(1)` runs (recorded as `Ev.sleep 1`) and the loop continues.
When the loop exhausts, the function returns `(False, 0)`. -/
def retryAux (ts : Nat → Transport) (host : String) (port : Nat)
    (attempt : Nat) (fuel : Nat) (g : Gs) : (Bool × ℚ) × Gs × List Ev :=
  match fuel with
  | 0 => ((false, 0), g, [])
  | fuel + 1 =>
    let c := check_host (ts attempt) host port g
    if c.1.1 then
      ((true, c.1.2), c.2, [Ev.probe host port])
    else
      let rest := retryAux ts host port (attempt + 1) fuel c.2
      (rest.1, rest.2.1, Ev.probe host port :: Ev.sleep 1 :: rest.2.2)

/-- `check_host_with_retry(host, port, retries=2)` from sniv2.py lines
207-214, with the per-attempt transport supplied by the oracle `ts`. -/
def check_host_with_retry (ts : Nat → Transport) (host : String) (port : Nat)
    (retries : Nat := 2) (g : Gs := none) : (Bool × ℚ) × Gs × List Ev :=
  retryAux ts host port 0 retries g

/-- Environment for host evaluation: the DNS oracle
(`socket.gethostbyname` succeeding or raising) and the transport oracle,
indexed by host, port and attempt number. -/
structure Env : Type where
  dns : String → Bool
  trans : String → Nat → Nat → Transport

/-- `resolve_dns(host)` from sniv2.py lines 176-182: `True` when
`socket.gethostbyname` succeeds, `False` when it raises `socket.error`. -/
def resolve_dns (env : Env) (host : String) : Bool :=
  env.dns host

/-! ### Hostname normalization (sniv2.py lines 245-246 and 285)

`host.replace("http://", "").replace("https://", "").split("/")[0]`,
modelled on `List Char`.  Python's `str.replace` removes every
non-overlapping occurrence, scanning left to right and continuing after
each removed occurrence. -/

/-- The pattern `"http://"` as a character list. -/
def httpPat : List Char := ['h', 't', 't', 'p', ':', '/', '/']

/-- The pattern `"https://"` as a character list. -/
def httpsPat : List Char := ['h', 't', 't', 'p', 's', ':', '/', '/']

/-- Fuel-indexed scan implementing Python `s.replace(p, "")` for a
non-empty pattern `p`: at each position, if `p` starts there, remove it
and continue scanning after the removed occurrence, otherwise keep the
character.  One unit of fuel is spent per emitted or removed character,
so `s.length` fuel always suffices. -/
def pyRemoveAux (p : List Char) : Nat → List Char → List Char
  | _, [] => []
  | 0, s => s
  | fuel + 1, c :: t =>
    if p ≠ [] ∧ p.isPrefixOf (c :: t) then
      pyRemoveAux p fuel ((c :: t).drop p.length)
    else
      c :: pyRemoveAux p fuel t

/-- Python `s.replace(p, "")` for a non-empty pattern `p`. -/
def pyRemove (p : List Char) (s : List Char) : List Char :=
  pyRemoveAux p s.length s

/-- Whether `p` occurs as a contiguous substring of `s`. -/
def containsSub (p : List Char) (s : List Char) : Bool :=
  p.isPrefixOf s ||
    match s with
    | [] => false
    | _ :: t => containsSub p t

/-- Python `s.split("/")[0]`: the characters before the first `'/'`. -/
def cutSlash (s : List Char) : List Char :=
  s.takeWhile (fun c => c ≠ '/')

/-- The normalization applied to each raw host string (sniv2.py lines
245-246 and 285): remove every occurrence of `"http://"`, then every
occurrence of `"https://"`, then keep only what stands before the first
`'/'`. -/
def normalizeChars (s : List Char) : List Char :=
  cutSlash (pyRemove httpsPat (pyRemove httpPat s))

/-- String-level wrapper of `normalizeChars`. -/
def normalize_host (s : String) : String :=
  String.mk (normalizeChars s.data)

/-- The spec's reading of normalization, for comparison with the code's
`normalizeChars`: strip a scheme only when it is a LEADING prefix of the
string, then cut at the first `'/'`. -/
def normalizeSpecClaim (s : List Char) : List Char :=
  let s1 :=
    if httpPat.isPrefixOf s then s.drop httpPat.length
    else if httpsPat.isPrefixOf s then s.drop httpsPat.length
    else s
  cutSlash s1

/-- Python `line.strip()`: drop leading and trailing whitespace. -/
def pyStrip (s : List Char) : List Char :=
  ((s.dropWhile Char.isWhitespace).reverse.dropWhile Char.isWhitespace).reverse

/-- String-level wrapper of `pyStrip`. -/
def strip (s : String) : String :=
  String.mk (pyStrip s.data)

/-! ### Latency formatting (Python `f"{latency:.2f}"`)

Latencies are modelled as exact rationals, so the Python float format
`:.2f` becomes: round `latency * 100` to the nearest integer, ties to
even, and print with two decimal digits. -/

/-- Round `q * 100` to the nearest integer, ties to even (the rounding
Python's `format` applies to the decimal value), computed directly on the
numerator and denominator: `f` is the floor of `num * 100 / den` and `r`
is the remainder, so the fractional part is `r / d` and the tie sits at
`2 * r = d`. -/
def roundHundredths (q : ℚ) : Int :=
  let n := q.num * 100
  let d := (q.den : Int)
  let f := Int.fdiv n d
  let r := n - f * d
  if 2 * r < d then f
  else if d < 2 * r then f + 1
  else if f % 2 = 0 then f else f + 1

/-- Two-digit decimal rendering of a nonnegative-in-practice latency,
matching `f"{latency:.2f}"`. -/
def fmt2 (q : ℚ) : String :=
  let n := roundHundredths q
  let a := n.natAbs
  let frac := a % 100
  (if n < 0 then "-" else "") ++ toString (a / 100) ++ "." ++
    (if frac < 10 then "0" else "") ++ toString frac

/-- Rendering of a working host in the batch report
(sniv2.py line 296). -/
def workingLine (host : String) (latency : ℚ) : String :=
  "- " ++ host ++ " (Latency: " ++ fmt2 latency ++ " ms)"

/-- Rendering of a non-working host in the batch report
(sniv2.py lines 288 and 298). -/
def nonWorkingLine (host : String) : String :=
  "- " ++ host

/-- Classification of one probed host from its two retry-probe results
(sniv2.py lines 294-298): working with the 443 latency when 443
succeeded, else with the 80 latency when 80 succeeded, else
non-working. -/
def classifyHost (host : String) (p443 p80 : Bool × ℚ) : Bool × String :=
  if p443.1 || p80.1 then
    (true, workingLine host (if p443.1 then p443.2 else p80.2))
  else
    (false, nonWorkingLine host)

/-- One iteration of the batch loop of `handle_document` (sniv2.py lines
281-300) on a raw input line: strip it, skip it when empty, normalize it,
run the DNS pre-check (skipping all probing and the throttle sleep via
`continue` when it fails), otherwise probe port 443 then port 80 with the
retry policy, classify, and run the fixed `time.sleep(1)` throttle.
Returns the bucket entry (`none` = skipped line, `some (true, e)` = entry
for the working list, `some (false, e)` = entry for the non-working list),
the final global state, and the event trace of the iteration. -/
def evalLine (env : Env) (line : String) (g : Gs) :
    Option (Bool × String) × Gs × List Ev :=
  let host := strip line
  if host = "" then (none, g, [])
  else
    let host := normalize_host host
    if resolve_dns env host then
      let r443 := check_host_with_retry (env.trans host 443) host 443 2 g
      let r80 := check_host_with_retry (env.trans host 80) host 80 2 r443.2.1
      (some (classifyHost host r443.1 r80.1), r80.2.1,
        Ev.dns host :: (r443.2.2 ++ r80.2.2 ++ [Ev.sleep 1]))
    else
      (some (false, nonWorkingLine host), g, [Ev.dns host])

/-- The scanning core of `handle_document` (sniv2.py lines 277-300): fold
`evalLine` over the input lines, accumulating the `working_hosts` and
`non_working_hosts` lists in input order, threading the global state and
concatenating the event traces. -/
def handle_document (env : Env) (lines : List String) (g : Gs) :
    List String × List String × Gs × List Ev :=
  match lines with
  | [] => ([], [], g, [])
  | l :: rest =>
    let e := evalLine env l g
    let h := handle_document env rest e.2.1
    match e.1 with
    | none => (h.1, h.2.1, h.2.2.1, e.2.2 ++ h.2.2.2)
    | some (true, entry) => (entry :: h.1, h.2.1, h.2.2.1, e.2.2 ++ h.2.2.2)
    | some (false, entry) => (h.1, entry :: h.2.1, h.2.2.1, e.2.2 ++ h.2.2.2)

/-! ### Single-host scan (`scan_specific_host`, sniv2.py lines 233-261) -/

/-- The reported components of a single-host scan outcome, read off
sniv2.py lines 253-255: the guard `is_working_443 or is_working_80`, the
reported port `'443' if is_working_443 else '80'`, and the reported
latency `latency_443 if is_working_443 else latency_80`; no port or
latency is reported in the failure message. -/
def scan_report (w443 : Bool) (l443 : ℚ) (w80 : Bool) (l80 : ℚ) :
    Bool × Option Nat × Option ℚ :=
  if w443 || w80 then
    (true, some (if w443 then 443 else 80), some (if w443 then l443 else l80))
  else
    (false, none, none)

/-- The spec's description of the same outcome: `working = reachable_443
OR reachable_80`; port 443 if reachable, else 80 if reachable, else none;
latency of whichever port succeeded, 443 preferred when both did. -/
def scan_report_spec (w443 : Bool) (l443 : ℚ) (w80 : Bool) (l80 : ℚ) :
    Bool × Option Nat × Option ℚ :=
  (w443 || w80,
    if w443 then some 443 else if w80 then some 80 else none,
    if w443 then some l443 else if w80 then some l80 else none)

/-- The result message built by `scan_specific_host`
(sniv2.py lines 253-257). -/
def scan_result (host : String) (w443 : Bool) (l443 : ℚ) (w80 : Bool)
    (l80 : ℚ) : String :=
  if w443 || w80 then
    "✅ " ++ host ++ " is working on port " ++
      (if w443 then "443" else "80") ++ " (Latency: " ++
      fmt2 (if w443 then l443 else l80) ++ " ms)"
  else
    "❌ " ++ host ++ " is NOT working on ports 443 and 80."

/-- `scan_specific_host` scanning core (sniv2.py lines 245-257): normalize
the argument, probe 443 then 80 with the retry policy, build the result
message. -/
def scan_specific_host (env : Env) (arg : String) (g : Gs) :
    String × Gs × List Ev :=
  let host := normalize_host (strip arg)
  let r443 := check_host_with_retry (env.trans host 443) host 443 2 g
  let r80 := check_host_with_retry (env.trans host 80) host 80 2 r443.2.1
  (scan_result host r443.1.1 r443.1.2 r80.1.1 r80.1.2,
    r80.2.1, r443.2.2 ++ r80.2.2)

/-! ### Concrete oracles used in witnesses and counterexamples -/

/-- A transport on which every primitive raises a catchable error. -/
def failTr : Transport :=
  ⟨fun _ => HttpR.exn, fun _ => HttpR.exn, fun _ _ => TcpR.exn⟩

/-- A transport on which every HTTP GET succeeds after 30 ms and every raw
connect succeeds (`connect_ex` returns 0) after 30 ms. -/
def okTr : Transport :=
  ⟨fun _ => HttpR.ok 30, fun _ => HttpR.ok 30, fun _ _ => TcpR.code 0 30⟩

/-- A transport whose raw connects are refused: `connect_ex` returns the
`ECONNREFUSED` code 111 after a measured 5 ms; HTTP GETs raise. -/
def refusedTr : Transport :=
  ⟨fun _ => HttpR.exn, fun _ => HttpR.exn, fun _ _ => TcpR.code 111 5⟩

/-! ### Helper lemmas about the global state and oracle independence -/

/-- On the web ports 443 and 80, `check_host` does not touch the global
default socket timeout. -/
lemma check_host_keeps_g (t : Transport) (host : String) (port : Nat)
    (g : Gs) (h : port = 443 ∨ port = 80) :
    (check_host t host port g).2 = g := by
  rcases h with h | h <;> subst h
  · cases hh : t.httpsGet host <;> simp [check_host, hh]
  · cases hh : t.httpGet host <;> simp [check_host, hh]

/-- On any port other than 443 and 80, `check_host` sets the global
default socket timeout to 10 seconds. -/
lemma check_host_sets_timeout (t : Transport) (host : String) (port : Nat)
    (g : Gs) (h443 : port ≠ 443) (h80 : port ≠ 80) :
    (check_host t host port g).2 = some 10 := by
  cases hh : t.connectEx host port <;> simp [check_host, hh, h443, h80]

/-- The result of `check_host` does not depend on the incoming global
state. -/
lemma check_host_fst_g (t : Transport) (host : String) (port : Nat)
    (g g' : Gs) : (check_host t host port g).1 = (check_host t host port g').1 := by
  by_cases h443 : port = 443
  · subst h443
    cases hh : t.httpsGet host <;> simp [check_host, hh]
  · by_cases h80 : port = 80
    · subst h80
      cases hh : t.httpGet host <;> simp [check_host, hh]
    · cases hh : t.connectEx host port <;> simp [check_host, hh, h443, h80]

/-- On the web ports, the retry loop leaves the global state unchanged. -/
lemma retryAux_keeps_g (ts : Nat → Transport) (host : String) (port : Nat)
    (h : port = 443 ∨ port = 80) :
    ∀ (n a : Nat) (g : Gs), (retryAux ts host port a n g).2.1 = g := by
  intro n
  induction n with
  | zero => intro a g; rfl
  | succ m ih =>
    intro a g
    simp only [retryAux]
    split
    · exact check_host_keeps_g _ host _ _ h
    · show (retryAux ts host port (a + 1) m
          (check_host (ts a) host port g).2).2.1 = g
      rw [ih]
      exact check_host_keeps_g _ host _ _ h

/-- The result and the event trace of the retry loop do not depend on the
incoming global state. -/
lemma retryAux_g (ts : Nat → Transport) (host : String) (port : Nat) :
    ∀ (n a : Nat) (g g' : Gs),
      (retryAux ts host port a n g).1 = (retryAux ts host port a n g').1 ∧
      (retryAux ts host port a n g).2.2 = (retryAux ts host port a n g').2.2 := by
  intro n
  induction n with
  | zero => intro a g g'; constructor <;> rfl
  | succ m ih =>
    intro a g g'
    have hfst := check_host_fst_g (ts a) host port g g'
    simp only [retryAux, hfst]
    by_cases hc : (check_host (ts a) host port g').1.1 = true
    · rw [if_pos hc, if_pos hc]
      constructor <;> rfl
    · rw [if_neg hc, if_neg hc]
      dsimp only
      refine ⟨(ih (a + 1) _ _).1, ?_⟩
      rw [(ih (a + 1) (check_host (ts a) host port g).2
        (check_host (ts a) host port g').2).2]

/-! ### C10 -/

/-- **C10**: for every transport oracle, hostname, port and incoming
global state, `check_host_with_retry` called with `retries = 0` performs
zero probe attempts and zero sleeps (its event trace is empty) and
returns `reachable = false, latency = 0`, leaving the state unchanged. -/
theorem c10_retry_zero (ts : Nat → Transport) (host : String) (port : Nat)
    (g : Gs) : check_host_with_retry ts host port 0 g = ((false, 0), g, []) :=
  rfl

/-! ### C8 -/

/-- **C8**: when the first probe attempt succeeds, `check_host_with_retry`
returns `reachable = true` with that attempt's latency, and its event
trace is exactly one probe call and no sleep. -/
theorem c8_first_success (ts : Nat → Transport) (host : String) (port : Nat)
    (g : Gs) (retries : Nat) (hr : 0 < retries)
    (hok : (check_host (ts 0) host port g).1.1 = true) :
    check_host_with_retry ts host port retries g =
      ((true, (check_host (ts 0) host port g).1.2),
        (check_host (ts 0) host port g).2, [Ev.probe host port]) := by
  cases retries with
  | zero => exact absurd hr (by simp)
  | succ n => simp only [check_host_with_retry, retryAux, hok, if_true]

/-- Witness for C8: a transport succeeding on the first attempt at 30 ms,
with the default `retries = 2`. -/
theorem c8_witness :
    check_host_with_retry (fun _ => okTr) "h" 443 2 none =
      ((true, 30), none, [Ev.probe "h" 443]) :=
  c8_first_success (fun _ => okTr) "h" 443 none 2 (by decide) rfl

/-! ### C1 -/

/-- Counterexample to C1 as stated: with every attempt failing and
`retries = 2`, the loop body `time.sleep(1)` runs after EVERY failed
attempt, the final one included, so the trace holds two sleeps, not one. -/
theorem c1_counterexample :
    countSleeps (check_host_with_retry (fun _ => failTr) "h" 443 2 none).2.2 ≠ 1 := by
  decide

/-- **C1 (amended)**: when every probe attempt fails, `check_host_with_retry`
with `retries = 2` invokes the single-protocol probe exactly 2 times,
sleeps exactly twice (1 second after each failed attempt, the last one
included), and returns `reachable = false, latency = 0`. -/
theorem c1_all_attempts_fail (ts : Nat → Transport) (host : String)
    (port : Nat) (g : Gs)
    (hfail : ∀ (i : Nat) (g' : Gs), (check_host (ts i) host port g').1.1 = false) :
    (check_host_with_retry ts host port 2 g).1 = (false, 0) ∧
    (check_host_with_retry ts host port 2 g).2.2 =
      [Ev.probe host port, Ev.sleep 1, Ev.probe host port, Ev.sleep 1] ∧
    countProbes (check_host_with_retry ts host port 2 g).2.2 = 2 ∧
    countSleeps (check_host_with_retry ts host port 2 g).2.2 = 2 := by
  have h : (check_host_with_retry ts host port 2 g).2.2 =
      [Ev.probe host port, Ev.sleep 1, Ev.probe host port, Ev.sleep 1] := by
    simp only [check_host_with_retry, retryAux, hfail, if_false, Bool.false_eq_true]
  refine ⟨?_, h, ?_, ?_⟩
  · simp only [check_host_with_retry, retryAux, hfail, if_false, Bool.false_eq_true]
  · rw [h]; rfl
  · rw [h]; rfl

/-- Witness for C1: the always-failing transport at port 443. -/
theorem c1_witness :
    (check_host_with_retry (fun _ => failTr) "h" 443 2 none).1 = (false, 0) ∧
    (check_host_with_retry (fun _ => failTr) "h" 443 2 none).2.2 =
      [Ev.probe "h" 443, Ev.sleep 1, Ev.probe "h" 443, Ev.sleep 1] ∧
    countProbes (check_host_with_retry (fun _ => failTr) "h" 443 2 none).2.2 = 2 ∧
    countSleeps (check_host_with_retry (fun _ => failTr) "h" 443 2 none).2.2 = 2 :=
  c1_all_attempts_fail (fun _ => failTr) "h" 443 none (fun _ _ => rfl)

/-! ### C2 -/

/-- Counterexample to C2 as stated: in the raw-TCP branch (port 8080), a
refused connection is reported by `connect_ex` through its nonzero return
code (111, after a 5 ms connect attempt), and `check_host` returns
`reachable = false` with the MEASURED latency of 5 ms, not with latency 0. -/
theorem c2_counterexample :
    (check_host refusedTr "h" 8080 none).1 = (false, 5) ∧ (5 : ℚ) ≠ 0 := by
  constructor
  · rfl
  · decide

/-- **C2 (amended)**: `check_host` never raises to its caller (it is a
total function of the oracle's answers); any RAISED transport-level error
(`requests.RequestException` / `socket.error`, covering connection
refused/reset on the web branches, unreachable, TLS failure, timeout) is
caught and yields `reachable = false, latency = 0`; in the raw-TCP branch,
however, a connect failure reported via a nonzero `connect_ex` return code
yields `reachable = false` with the measured wall-clock latency of the
connect attempt. -/
theorem c2_fails_closed (t : Transport) (host : String) (port : Nat) (g : Gs) :
    (port = 443 → t.httpsGet host = HttpR.exn →
      (check_host t host port g).1 = (false, 0)) ∧
    (port ≠ 443 → port = 80 → t.httpGet host = HttpR.exn →
      (check_host t host port g).1 = (false, 0)) ∧
    (port ≠ 443 → port ≠ 80 → t.connectEx host port = TcpR.exn →
      (check_host t host port g).1 = (false, 0)) ∧
    (∀ (r : Int) (lat : ℚ), port ≠ 443 → port ≠ 80 →
      t.connectEx host port = TcpR.code r lat →
      (check_host t host port g).1 = (r == 0, lat)) := by
  refine ⟨?_, ?_, ?_, ?_⟩
  · intro h hh
    subst h
    simp [check_host, hh]
  · intro h443 h hh
    subst h
    simp [check_host, hh, h443]
  · intro h443 h80 hh
    simp [check_host, hh, h443, h80]
  · intro r lat h443 h80 hh
    simp [check_host, hh, h443, h80]

/-- Witness for C2: port 443 with a raised TLS/connection error gives
`(false, 0)`, and port 8080 with a refused connect (code 111 after 5 ms)
gives `(false, 5)`. -/
theorem c2_witness :
    (check_host failTr "h" 443 none).1 = (false, 0) ∧
    (check_host refusedTr "h" 8080 none).1 = ((111 : Int) == 0, (5 : ℚ)) :=
  ⟨(c2_fails_closed failTr "h" 443 none).1 rfl rfl,
    (c2_fails_closed refusedTr "h" 8080 none).2.2.2 111 5
      (by decide) (by decide) rfl⟩

/-! ### C9 -/

/-- Counterexample to C9 as stated: `check_host` on a port other than 443
and 80 executes `socket.setdefaulttimeout(10)`, mutating process-global
state observable by later calls: the global default socket timeout changes
from unset to 10 seconds. -/
theorem c9_counterexample :
    (check_host refusedTr "h" 8080 none).2 ≠ (none : Gs) := by
  decide

/-- **C9 (amended)**: on the web ports 443 and 80, `check_host` and
`check_host_with_retry` leave the process-global state unchanged (and the
result of every prober call depends only on its inputs and the
network/clock oracle); but for any other port value `check_host` sets the
process-global default socket timeout to 10 seconds
(`socket.setdefaulttimeout(10)`), which a later call can observe. -/
theorem c9_global_state (t : Transport) (ts : Nat → Transport)
    (host : String) (port : Nat) (g : Gs) (retries : Nat) :
    (port = 443 ∨ port = 80 →
      (check_host t host port g).2 = g ∧
      (check_host_with_retry ts host port retries g).2.1 = g) ∧
    (port ≠ 443 → port ≠ 80 → (check_host t host port g).2 = some 10) := by
  refine ⟨fun h => ⟨check_host_keeps_g t host port g h, ?_⟩,
    fun h443 h80 => check_host_sets_timeout t host port g h443 h80⟩
  exact retryAux_keeps_g ts host port h retries 0 g

/-- Witness for C9: at port 443 the state is kept; at port 8080 the
global default socket timeout becomes 10 seconds. -/
theorem c9_witness :
    ((check_host okTr "h" 443 (some 7)).2 = some 7 ∧
      (check_host_with_retry (fun _ => okTr) "h" 443 2 (some 7)).2.1 = some 7) ∧
    (check_host refusedTr "h" 8080 none).2 = some 10 :=
  ⟨(c9_global_state okTr (fun _ => okTr) "h" 443 (some 7) 2).1 (Or.inl rfl),
    (c9_global_state refusedTr (fun _ => refusedTr) "h" 8080 none 2).2
      (by decide) (by decide)⟩

/-! ### C5 -/

/-- **C5**: the single-host evaluation of `scan_specific_host` reports
`working = reachable_443 OR reachable_80`, reports port 443 if the 443
probe succeeded, else port 80 if that succeeded (no port otherwise), and
reports the latency of the 443 probe whenever 443 succeeded, preferring
it over port 80's latency when both succeed: the components read off the
code (`scan_report`) coincide with the spec's description
(`scan_report_spec`) for all probe results. -/
theorem c5_report_matches_spec (w443 : Bool) (l443 : ℚ) (w80 : Bool)
    (l80 : ℚ) :
    scan_report w443 l443 w80 l80 = scan_report_spec w443 l443 w80 l80 := by
  cases w443 <;> cases w80 <;> simp [scan_report, scan_report_spec]

/-! ### C4: normalization lemmas -/

/-- Unfolding of `containsSub` on a cons cell. -/
lemma containsSub_cons (p : List Char) (c : Char) (t : List Char) :
    containsSub p (c :: t) = (p.isPrefixOf (c :: t) || containsSub p t) :=
  rfl

/-- A pattern that occurs nowhere in `s` is never removed, whatever the
fuel. -/
lemma pyRemoveAux_no_occ (p : List Char) :
    ∀ (fuel : Nat) (s : List Char), containsSub p s = false →
      pyRemoveAux p fuel s = s := by
  intro fuel
  induction fuel with
  | zero => intro s h; cases s <;> rfl
  | succ m ih =>
    intro s h
    cases s with
    | nil => rfl
    | cons c t =>
      rw [containsSub_cons] at h
      rcases Bool.or_eq_false_iff.mp h with ⟨h1, h2⟩
      have hcond : ¬(p ≠ [] ∧ p.isPrefixOf (c :: t) = true) := by
        rintro ⟨-, hpre⟩
        rw [h1] at hpre
        exact Bool.false_ne_true hpre
      simp only [pyRemoveAux]
      rw [if_neg hcond, ih t h2]

/-- A pattern that occurs nowhere in `s` is never removed. -/
lemma pyRemove_no_occ (p s : List Char) (h : containsSub p s = false) :
    pyRemove p s = s :=
  pyRemoveAux_no_occ p s.length s h

/-- Removing a non-empty pattern from `p ++ s` when `p` does not occur in
`s` strips exactly the leading copy of `p`. -/
lemma pyRemove_strip_leading (p s : List Char) (hp : p ≠ [])
    (hno : containsSub p s = false) : pyRemove p (p ++ s) = s := by
  rcases p with _ | ⟨q, qs⟩
  · exact absurd rfl hp
  · show pyRemoveAux (q :: qs) ((q :: qs) ++ s).length ((q :: qs) ++ s) = s
    simp only [List.cons_append, List.length_cons]
    rw [pyRemoveAux, if_pos ?hc]
    case hc =>
      refine ⟨by simp, ?_⟩
      rw [List.isPrefixOf_iff_prefix]
      exact List.prefix_append (q :: qs) s
    simp only [List.length_cons, List.drop_succ_cons, List.drop_left]
    exact pyRemoveAux_no_occ (q :: qs) (qs ++ s).length s hno

/-- `"http://"` never starts inside the 8 header characters of
`"https://" ++ s`, so it occurs in `"https://" ++ s` exactly when it
occurs in `s`. -/
lemma containsSub_http_in_https (s : List Char) :
    containsSub httpPat (httpsPat ++ s) = containsSub httpPat s := by
  have e1 : List.isPrefixOf httpPat
      ('h' :: 't' :: 't' :: 'p' :: 's' :: ':' :: '/' :: '/' :: s) = false := rfl
  have e2 : List.isPrefixOf httpPat
      ('t' :: 't' :: 'p' :: 's' :: ':' :: '/' :: '/' :: s) = false := rfl
  have e3 : List.isPrefixOf httpPat
      ('t' :: 'p' :: 's' :: ':' :: '/' :: '/' :: s) = false := rfl
  have e4 : List.isPrefixOf httpPat
      ('p' :: 's' :: ':' :: '/' :: '/' :: s) = false := rfl
  have e5 : List.isPrefixOf httpPat
      ('s' :: ':' :: '/' :: '/' :: s) = false := rfl
  have e6 : List.isPrefixOf httpPat (':' :: '/' :: '/' :: s) = false := rfl
  have e7 : List.isPrefixOf httpPat ('/' :: '/' :: s) = false := rfl
  have e8 : List.isPrefixOf httpPat ('/' :: s) = false := rfl
  simp only [httpsPat, List.cons_append, List.nil_append, containsSub_cons,
    e1, e2, e3, e4, e5, e6, e7, e8, Bool.false_or]

/-- Counterexample to C4 as stated: Python's `replace` removes EVERY
occurrence of the scheme, not only a leading prefix.  On the raw string
`"ahttp://b.com"` the code normalizes to `"ab.com"`, while the claimed
leading-prefix stripping would keep `"ahttp:"` (cut at the first `'/'`). -/
theorem c4_counterexample :
    normalizeChars ("ahttp://b.com".data) ≠
      normalizeSpecClaim ("ahttp://b.com".data) := by
  decide

/-- **C4 (amended)**: normalization removes every occurrence of
`"http://"` and then of `"https://"` anywhere in the string (not only a
leading scheme prefix) and then removes everything from the first `'/'`
onward, preserving character case.  In particular, whenever the two
scheme substrings do not occur in the remainder `s`, a string with a
leading scheme (or none) normalizes exactly as the spec describes:
`"http://" ++ s`, `"https://" ++ s` and `s` itself all normalize to `s`
cut at its first `'/'`; e.g. `"https://Example.com/path?x=1"` normalizes
to exactly `"Example.com"`. -/
theorem c4_normalization (s : List Char)
    (h1 : containsSub httpPat s = false)
    (h2 : containsSub httpsPat s = false) :
    normalizeChars (httpPat ++ s) = cutSlash s ∧
    normalizeChars (httpsPat ++ s) = cutSlash s ∧
    normalizeChars s = cutSlash s := by
  refine ⟨?_, ?_, ?_⟩
  · rw [normalizeChars, pyRemove_strip_leading httpPat s (by decide) h1,
      pyRemove_no_occ httpsPat s h2]
  · rw [normalizeChars,
      pyRemove_no_occ httpPat (httpsPat ++ s)
        (by rw [containsSub_http_in_https s]; exact h1),
      pyRemove_strip_leading httpsPat s (by decide) h2]
  · rw [normalizeChars, pyRemove_no_occ httpPat s h1,
      pyRemove_no_occ httpsPat s h2]

/-- Witness for C4: the spec's own example input. -/
theorem c4_witness :
    normalizeChars ("https://Example.com/path?x=1".data) = "Example.com".data := by
  have h := (c4_normalization ("Example.com/path?x=1".data)
    (by decide) (by decide)).2.1
  exact h

/-! ### Environments used in witnesses and counterexamples -/

/-- An environment in which no hostname resolves. -/
def envDnsFail : Env := ⟨fun _ => false, fun _ _ _ => failTr⟩

/-- An environment in which every hostname resolves and every probe
succeeds on the first attempt at 30 ms. -/
def envOk : Env := ⟨fun _ => true, fun _ _ _ => okTr⟩

/-! ### C6 -/

/-- **C6**: for every non-blank line whose normalized host fails the DNS
pre-check, the batch iteration classifies it non-working and its event
trace is just the DNS lookup — zero `check_host` invocations, zero
sleeps, state untouched. -/
theorem c6_dns_fail_no_probe (env : Env) (line : String) (g : Gs)
    (hne : strip line ≠ "")
    (hdns : resolve_dns env (normalize_host (strip line)) = false) :
    evalLine env line g =
      (some (false, nonWorkingLine (normalize_host (strip line))), g,
        [Ev.dns (normalize_host (strip line))]) ∧
    countProbes (evalLine env line g).2.2 = 0 := by
  have hcond : ¬(resolve_dns env (normalize_host (strip line)) = true) := by
    rw [hdns]
    exact Bool.false_ne_true
  have h : evalLine env line g =
      (some (false, nonWorkingLine (normalize_host (strip line))), g,
        [Ev.dns (normalize_host (strip line))]) := by
    simp only [evalLine]
    rw [if_neg hne, if_neg hcond]
  refine ⟨h, ?_⟩
  rw [h]
  rfl

/-- Witness for C6: a host that does not resolve. -/
theorem c6_witness :
    evalLine envDnsFail "a.example" none =
      (some (false, nonWorkingLine (normalize_host (strip "a.example"))), none,
        [Ev.dns (normalize_host (strip "a.example"))]) ∧
    countProbes (evalLine envDnsFail "a.example" none).2.2 = 0 :=
  c6_dns_fail_no_probe envDnsFail "a.example" none (by decide) rfl

/-! ### C3 -/

/-- Counterexample to C3 as stated: in a batch holding one host that
fails the DNS pre-check, NO `time.sleep` runs at all — the `continue` on
the DNS-failure path skips the fixed 1-second pause of line 300, so the
pause is not executed after every host's evaluation. -/
theorem c3_counterexample :
    Ev.sleep 1 ∉ (handle_document envDnsFail ["a.example"] none).2.2.2 := by
  decide

/-- **C3 (amended)**: the fixed 1-second pause runs after each host that
passes the DNS pre-check (whatever its probe outcome — the iteration's
event trace ends with `time.sleep(1)`), but a host classified non-working
by the DNS pre-check is skipped with `continue` before the pause, so its
trace holds no sleep at all; blank lines produce no events. -/
theorem c3_throttle_pause (env : Env) (line : String) (g : Gs) :
    (strip line ≠ "" → resolve_dns env (normalize_host (strip line)) = true →
      ∃ pre, (evalLine env line g).2.2 = pre ++ [Ev.sleep 1]) ∧
    (resolve_dns env (normalize_host (strip line)) = false →
      countSleeps (evalLine env line g).2.2 = 0) ∧
    (strip line = "" → (evalLine env line g).2.2 = []) := by
  refine ⟨fun hne hdns => ?_, fun hdns => ?_, fun he => ?_⟩
  · simp only [evalLine]
    rw [if_neg hne, if_pos hdns]
    exact ⟨Ev.dns (normalize_host (strip line)) ::
      ((check_host_with_retry
          (env.trans (normalize_host (strip line)) 443)
          (normalize_host (strip line)) 443 2 g).2.2 ++
        (check_host_with_retry
          (env.trans (normalize_host (strip line)) 80)
          (normalize_host (strip line)) 80 2
          (check_host_with_retry
            (env.trans (normalize_host (strip line)) 443)
            (normalize_host (strip line)) 443 2 g).2.1).2.2), by simp⟩
  · by_cases he : strip line = ""
    · simp only [evalLine]
      rw [if_pos he]
      rfl
    · have hcond : ¬(resolve_dns env (normalize_host (strip line)) = true) := by
        rw [hdns]
        exact Bool.false_ne_true
      simp only [evalLine]
      rw [if_neg he, if_neg hcond]
      rfl
  · simp only [evalLine]
    rw [if_pos he]

/-- Witness for C3: a resolving host probed successfully; its iteration
trace ends with the 1-second throttle pause. -/
theorem c3_witness :
    ∃ pre, (evalLine envOk "b.example" none).2.2 = pre ++ [Ev.sleep 1] :=
  (c3_throttle_pause envOk "b.example" none).1 (by decide) rfl

/-! ### C7 -/

/-- The result of the retry loop does not depend on the incoming global
state. -/
lemma retry_fst_g (ts : Nat → Transport) (host : String) (port : Nat)
    (n : Nat) (g g' : Gs) :
    (check_host_with_retry ts host port n g).1 =
      (check_host_with_retry ts host port n g').1 :=
  (retryAux_g ts host port n 0 g g').1

/-- The bucket entry produced for a line does not depend on the incoming
global state. -/
lemma evalLine_fst_g (env : Env) (line : String) (g g' : Gs) :
    (evalLine env line g).1 = (evalLine env line g').1 := by
  by_cases he : strip line = ""
  · simp only [evalLine]
    rw [if_pos he, if_pos he]
  · by_cases hd : resolve_dns env (normalize_host (strip line)) = true
    · simp only [evalLine]
      rw [if_neg he, if_neg he, if_pos hd, if_pos hd]
      dsimp only
      rw [retry_fst_g (env.trans (normalize_host (strip line)) 443)
        (normalize_host (strip line)) 443 2 g g']
      rw [retry_fst_g (env.trans (normalize_host (strip line)) 80)
        (normalize_host (strip line)) 80 2
        (check_host_with_retry (env.trans (normalize_host (strip line)) 443)
          (normalize_host (strip line)) 443 2 g).2.1
        (check_host_with_retry (env.trans (normalize_host (strip line)) 443)
          (normalize_host (strip line)) 443 2 g').2.1]
    · simp only [evalLine]
      rw [if_neg he, if_neg he, if_neg hd, if_neg hd]

/-- The entry a line contributes to the `working_hosts` list, when it
contributes one: the rendering `workingLine` of a host classified
working. -/
def workingEntry (env : Env) (line : String) : Option String :=
  match (evalLine env line none).1 with
  | some (true, e) => some e
  | _ => none

/-- The entry a line contributes to the `non_working_hosts` list, when it
contributes one. -/
def nonWorkingEntry (env : Env) (line : String) : Option String :=
  match (evalLine env line none).1 with
  | some (false, e) => some e
  | _ => none

/-- **C7**: batch evaluation produces its two report lists as order-
preserving projections of the input lines: the `working_hosts` list is
exactly the input-ordered `filterMap` of the per-line working entries
(each rendered `"- h (Latency: l ms)"` by `workingLine` inside
`evalLine`/`classifyHost`), and the `non_working_hosts` list likewise for
non-working entries (rendered `"- h"` by `nonWorkingLine`); no sorting
and no deduplication happens, duplicates and order being preserved by
`filterMap`. -/
theorem c7_buckets_in_input_order (env : Env) (lines : List String) (g : Gs) :
    (handle_document env lines g).1 = lines.filterMap (workingEntry env) ∧
    (handle_document env lines g).2.1 =
      lines.filterMap (nonWorkingEntry env) := by
  induction lines generalizing g with
  | nil => exact ⟨rfl, rfl⟩
  | cons l rest ih =>
    have hg := evalLine_fst_g env l g none
    obtain ⟨ih1, ih2⟩ := ih (evalLine env l g).2.1
    rcases hE : (evalLine env l none).1 with _ | ⟨b, entry⟩
    · constructor
      · simp only [handle_document, List.filterMap_cons, workingEntry,
          nonWorkingEntry, hg, hE, ih1]
      · simp only [handle_document, List.filterMap_cons, workingEntry,
          nonWorkingEntry, hg, hE, ih2]
    · cases b
      · constructor
        · simp only [handle_document, List.filterMap_cons, workingEntry,
            nonWorkingEntry, hg, hE, ih1]
        · simp only [handle_document, List.filterMap_cons, workingEntry,
            nonWorkingEntry, hg, hE, ih2]
      · constructor
        · simp only [handle_document, List.filterMap_cons, workingEntry,
            nonWorkingEntry, hg, hE, ih1]
        · simp only [handle_document, List.filterMap_cons, workingEntry,
            nonWorkingEntry, hg, hE, ih2]

/-- Sanity check matching the spec's batch example: `a.example` fails DNS,
`b.example` resolves and succeeds at 30 ms; the two buckets keep input
order and the exact renderings. -/
example :
    (handle_document ⟨fun h => h == "b.example", fun _ _ _ => okTr⟩
        ["a.example", "b.example"] none).1 =
      ["- b.example (Latency: 30.00 ms)"] ∧
    (handle_document ⟨fun h => h == "b.example", fun _ _ _ => okTr⟩
        ["a.example", "b.example"] none).2.1 = ["- a.example"] := by
  decide
